import Mathlib

/-!
Verification development for the philnet-scraper repository.

The repository has two Python source files:
  src/utils.py  — an async bounded HTML fetcher (httpx) and a single-parse
                  feature extractor (BeautifulSoup, urllib.parse, tldextract);
  src/main.py   — a synchronous pipeline: fetch the phishing feed, filter,
                  fetch pages (requests), quality-filter, extract text and
                  heuristic features, append to the persisted parquet dataset.

This file gives a shallow embedding of both files.  Python strings are Lean
String, Python ints are Int or Nat, dictionaries holding the feature record
are association lists of (String, FVal) pairs kept in insertion order, byte
payloads are List Nat, and code that can raise is embedded as Except PyError.
External library behaviour (urllib.parse.urlparse, tldextract, BeautifulSoup
parse trees, httpx/requests responses) is modelled explicitly: the parse tree
of a document is carried as an input alongside the raw markup, and the url
parser follows the CPython urlsplit algorithm.
-/

/-- Exceptions that the embedded code can raise.
    httpStatusError models httpx.HTTPStatusError, raised by
    response.raise_for_status and not a subclass of httpx.RequestError;
    attributeError models AttributeError (attribute access on None);
    valueError models ValueError (raised by urllib.parse.urlparse on
    bracket-unbalanced hosts). -/
inductive PyError where
  | httpStatusError
  | attributeError
  | valueError
  deriving DecidableEq, Repr

deriving instance DecidableEq for Except

/-- Whitespace characters for the Python str.strip / str.split / regex
    whitespace class, restricted to the ASCII set. -/
def pyIsSpace (c : Char) : Bool :=
  c = ' ' || c = '\t' || c = '\n' || c = '\r' || c = '\x0b' || c = '\x0c'

/-- Model of Python str.strip with no arguments: drop leading and trailing
    whitespace. -/
def pyStrip (s : String) : String :=
  String.mk (((s.data.dropWhile pyIsSpace).reverse.dropWhile pyIsSpace).reverse)

/-- Substring occurrence on character lists; listContains sub hay is true
    when sub occurs contiguously inside hay. -/
def listContains (sub : List Char) : List Char → Bool
  | [] => sub.isEmpty
  | c :: t => sub.isPrefixOf (c :: t) || listContains sub t

/-- Model of the Python substring test: sub in hay. -/
def pyIn (sub hay : String) : Bool :=
  listContains sub.data hay.data

/-- Model of Python str.lower, on the ASCII range. -/
def pyLower (s : String) : String :=
  String.mk (s.data.map Char.toLower)

/-- Model of Python str.endswith. -/
def strEndsWith (s suffix : String) : Bool :=
  suffix.data.isSuffixOf s.data

/-- Model of Python str.split with a one-character separator: the pieces
    between occurrences of the separator, possibly empty, so the empty
    string yields one empty piece. -/
def splitOnChar (c : Char) : List Char → List (List Char)
  | [] => [[]]
  | x :: t =>
    if x = c then [] :: splitOnChar c t
    else
      match splitOnChar c t with
      | h :: r => (x :: h) :: r
      | [] => [[x]]

/-- String version of splitOnChar. -/
def pySplitChar (c : Char) (s : String) : List String :=
  (splitOnChar c s.data).map String.mk

/-- Split at every character satisfying the predicate, keeping possibly
    empty pieces between separators. -/
def splitByPred (p : Char → Bool) : List Char → List (List Char)
  | [] => [[]]
  | x :: t =>
    if p x then [] :: splitByPred p t
    else
      match splitByPred p t with
      | h :: r => (x :: h) :: r
      | [] => [[x]]

/-- Join strings with a separator between consecutive elements. -/
def joinSep (sep : String) : List String → String
  | [] => ""
  | [x] => x
  | x :: y :: t => x ++ sep ++ joinSep sep (y :: t)

/-- The first n characters of a string, for the Python slice s[:n]. -/
def strTake (s : String) (n : Nat) : String :=
  String.mk (s.data.take n)

/-- Truthiness of an optional string, as Python evaluates it: None and the
    empty string are falsy. -/
def isTruthy (a : Option String) : Bool :=
  (a.getD "") ≠ ""

/-- Model of the Python expression a or b on optional strings: the left value
    when it is truthy, otherwise the right value. -/
def pyOr (a b : Option String) : Option String :=
  if isTruthy a then a else b

/-- Split the list at the first occurrence of character c: returns the part
    before and, when c occurs, the part after it. -/
def breakAt (c : Char) : List Char → List Char × Option (List Char)
  | [] => ([], none)
  | x :: t =>
    if x = c then ([], some t)
    else
      let p := breakAt c t
      (x :: p.1, p.2)

/-- Hexadecimal digit test for the percent-encoding pattern. -/
def isHexDigit (c : Char) : Bool :=
  c.isDigit || ('a' ≤ c && c ≤ 'f') || ('A' ≤ c && c ≤ 'F')

/-- Matcher for the regex %[0-9a-fA-F]{2} anywhere in the list
    (URL_ENCODING_PATTERN in utils.py, and the identical inline regex in
    main.py). -/
def encSearch : List Char → Bool
  | '%' :: a :: b :: t => (isHexDigit a && isHexDigit b) || encSearch (a :: b :: t)
  | _ :: t => encSearch t
  | [] => false

/-- Characters of a base64 payload, for the regex base64,[A-Za-z0-9+/=]+. -/
def isB64Char (c : Char) : Bool :=
  c.isAlphanum || c = '+' || c = '/' || c = '='

/-- True when the regex base64,[A-Za-z0-9+/=]+ matches at the head of the
    list: the literal base64, followed by at least one payload character. -/
def base64At (l : List Char) : Bool :=
  "base64,".data.isPrefixOf l &&
    (match l.drop 7 with
     | c :: _ => isB64Char c
     | [] => false)

/-- Search for the regex base64,[A-Za-z0-9+/=]+ anywhere in the list
    (BASE64_PATTERN in utils.py, identical inline regex in main.py);
    re.findall returns a nonempty list exactly when this search succeeds. -/
def hasBase64 : List Char → Bool
  | [] => false
  | c :: t => base64At (c :: t) || hasBase64 t

/-- Match 1 to 3 digits greedily (with backtracking) and continue with cont,
    for the regex fragment d{1,3}. -/
def tryDigits (l : List Char) (cont : List Char → Bool) : Bool :=
  (match l with
   | a :: b :: c :: r => a.isDigit && b.isDigit && c.isDigit && cont r
   | _ => false) ||
  (match l with
   | a :: b :: r => a.isDigit && b.isDigit && cont r
   | _ => false) ||
  (match l with
   | a :: r => a.isDigit && cont r
   | _ => false)

/-- Match a literal dot followed by 1 to 3 digits, then continue with cont. -/
def dotDigits (cont : List Char → Bool) (l : List Char) : Bool :=
  match l with
  | '.' :: r => tryDigits r cont
  | _ => false

/-- Match the regex http[s]?://d{1,3}(.d{1,3}){3} at the head of the list
    (IP_ADDRESS_PATTERN in utils.py, identical inline regex in main.py). -/
def ipAt (l : List Char) : Bool :=
  match l with
  | 'h' :: 't' :: 't' :: 'p' :: r =>
    (match r with
     | 's' :: ':' :: '/' :: '/' :: r2 => tryDigits r2 (dotDigits (dotDigits (dotDigits (fun _ => true))))
     | ':' :: '/' :: '/' :: r2 => tryDigits r2 (dotDigits (dotDigits (dotDigits (fun _ => true))))
     | _ => false)
  | _ => false

/-- Search the IP-address regex at every position, as re.search does. -/
def ipSearch : List Char → Bool
  | [] => false
  | c :: t => ipAt (c :: t) || ipSearch t

/-- The five components of a parsed URL used by the sources: result of
    urllib.parse.urlparse (params are never read by this code and are
    folded into path). -/
structure UrlParts where
  scheme : String
  netloc : String
  path : String
  query : String
  fragment : String
  deriving DecidableEq, Repr

/-- Valid characters of a URL scheme after the first (CPython scheme_chars). -/
def isSchemeChar (c : Char) : Bool :=
  c.isAlphanum || c = '+' || c = '-' || c = '.'

/-- Model of urllib.parse.urlparse, following the CPython urlsplit
    algorithm: remove tab, carriage-return and newline characters; split a
    valid scheme at the first colon and lowercase it; when the remainder
    starts with two slashes, take the netloc up to the first of slash,
    question mark or hash, raising ValueError (embedded as none) when the
    netloc contains an unbalanced square bracket; then split off the
    fragment after a hash and the query after a question mark.
    Simplifications: the extra host-validation checks of newer CPython
    versions and the params split (unused by the sources) are omitted. -/
def pyUrlparse (url : String) : Option UrlParts :=
  let l := url.data.filter (fun c => c != '\t' && c != '\r' && c != '\n')
  let p := breakAt ':' l
  let schemeRest : String × List Char :=
    match p.2 with
    | some rest =>
      if p.1 ≠ [] && (match p.1 with | c :: t => c.isAlpha && t.all isSchemeChar && isSchemeChar c | [] => false)
      then (pyLower (String.mk p.1), rest)
      else ("", l)
    | none => ("", l)
  let scheme := schemeRest.1
  let afterScheme := schemeRest.2
  let netlocRest : List Char × List Char :=
    match afterScheme with
    | '/' :: '/' :: r =>
      let nl := r.takeWhile (fun c => c != '/' && c != '?' && c != '#')
      (nl, r.drop nl.length)
    | _ => ([], afterScheme)
  let netloc := netlocRest.1
  if (netloc.contains '[' && !netloc.contains ']') ||
     (netloc.contains ']' && !netloc.contains '[') then
    none
  else
    let rest := netlocRest.2
    let pf := breakAt '#' rest
    let fragment := match pf.2 with | some f => String.mk f | none => ""
    let pq := breakAt '?' pf.1
    let query := match pq.2 with | some q => String.mk q | none => ""
    some ⟨scheme, String.mk netloc, String.mk pq.1, query, fragment⟩

/-- safe_urlparse from utils.py lines 77-81: urlparse wrapped in
    try/except ValueError returning None; with the ValueError already
    embedded as none, this is pyUrlparse itself. -/
def safe_urlparse (url : String) : Option UrlParts :=
  pyUrlparse url

/-- A value of the heuristic feature dictionary: Python int or bool. -/
inductive FVal where
  | i (n : Int)
  | b (v : Bool)
  deriving DecidableEq, Repr

/-- The feature record: a Python dict from feature name to value, modelled
    as an association list in insertion order. -/
abbrev Features := List (String × FVal)

/-- Dictionary lookup on a feature record. -/
def fget (fs : Features) (k : String) : Option FVal :=
  (fs.find? (fun p => p.1 == k)).map (fun p => p.2)

/-- A parsed HTML document in first-child/next-sibling form: empty, an
    element node with a tag name, an attribute association list, its
    children and the following siblings, or a text node with the following
    siblings.  This is the shape of the BeautifulSoup parse tree that the
    sources traverse; the sibling encoding keeps every traversal a plain
    structural recursion. -/
inductive Dom where
  | nil
  | elem (tag : String) (attrs : List (String × String)) (children : Dom) (rest : Dom)
  | text (s : String) (rest : Dom)
  deriving DecidableEq, Repr

/-- An HTML input to the extractors: the raw markup string together with its
    parse tree.  BeautifulSoup, being an external library, is modelled by
    carrying the parse tree of the markup alongside the markup itself; the
    string-level checks of the sources run on raw and the DOM traversals run
    on dom. -/
structure Html where
  raw : String
  dom : Dom

/-- An element with its tag name and attributes, as returned by the
    find_all traversals. -/
structure TagInfo where
  name : String
  attrs : List (String × String)
  deriving DecidableEq, Repr

/-- Model of tag.decompose applied to every element whose name is in names:
    remove those elements together with their whole subtrees (utils.py
    lines 134-135 for script, style, noscript; main.py lines 57-58 for
    script, style). -/
def decomposeList (names : List String) : Dom → Dom
  | Dom.nil => Dom.nil
  | Dom.elem t a c rest =>
    if names.contains t then decomposeList names rest
    else Dom.elem t a (decomposeList names c) (decomposeList names rest)
  | Dom.text s rest => Dom.text s (decomposeList names rest)

/-- All elements of the tree in document (preorder) order, the order in
    which soup.find_all returns matches. -/
def allTags : Dom → List TagInfo
  | Dom.nil => []
  | Dom.elem t a c rest => ⟨t, a⟩ :: (allTags c ++ allTags rest)
  | Dom.text _ rest => allTags rest

/-- Model of soup.find_all(name): the elements with the given tag name in
    document order. -/
def findTags (dom : Dom) (name : String) : List TagInfo :=
  (allTags dom).filter (fun t => t.name == name)

/-- Model of tag.get(key): the first attribute with the given name, or
    None. -/
def attrGet (t : TagInfo) (k : String) : Option String :=
  (t.attrs.find? (fun p => p.1 == k)).map (fun p => p.2)

/-- All text-node strings of the tree in document order. -/
def collectTexts : Dom → List String
  | Dom.nil => []
  | Dom.elem _ _ c rest => collectTexts c ++ collectTexts rest
  | Dom.text s rest => s :: collectTexts rest

/-- Model of soup.get_text(separator, strip=True): strip every text node,
    drop the ones that become empty, and join the rest with the
    separator. -/
def getTextStrip (sep : String) (dom : Dom) : String :=
  joinSep sep (((collectTexts dom).map pyStrip).filter (fun s => s ≠ ""))

/-- Model of the regex substitution collapsing whitespace runs to a single
    space: re.sub of one or more whitespace characters with one space
    (utils.py line 139). -/
def collapseWs (s : String) : String :=
  joinSep " " (((splitByPred pyIsSpace s.data).map String.mk).filter (fun t => t ≠ ""))

/-- Characters kept by the allow-list substitution re.sub removing
    everything outside word characters, whitespace and .,!?-
    (utils.py line 140); word characters are modelled as the ASCII set. -/
def isAllowedTextChar (c : Char) : Bool :=
  c.isAlphanum || c = '_' || pyIsSpace c || c = '.' || c = ',' || c = '!' || c = '?' || c = '-'

/-- Model of Python str.split with no arguments: split on whitespace runs,
    dropping empty pieces. -/
def pySplitWs (s : String) : List String :=
  ((splitByPred pyIsSpace s.data).map String.mk).filter (fun t => t ≠ "")

namespace Utils

/-- MAX_SIZE_KB from utils.py line 11. -/
def MAX_SIZE_KB : Nat := 220

/-- The body of one HTTP response as the fetcher sees it: the optional
    Content-Length header value and the byte chunks yielded by
    response.aiter_bytes (chunk_size 8192, so each chunk holds at most
    8192 bytes). -/
structure HttpOkResponse where
  contentLength : Option Nat
  chunks : List (List Nat)
  deriving DecidableEq, Repr

/-- The outcome of issuing the request, before the fetcher reacts to it:
    a response object (possibly carrying a non-success status that
    raise_for_status will turn into httpx.HTTPStatusError), or one of the
    request-level exceptions. -/
inductive HttpOutcome where
  | ok (statusSuccess : Bool) (r : HttpOkResponse)
  | requestError
  | tooManyRedirects
  deriving DecidableEq, Repr

/-- The streaming loop of utils.py lines 52-60: append each chunk to the
    accumulated content and stop as soon as the accumulated length exceeds
    maxBytes.  The wall-clock break at line 58 depends on real time and is
    not modelled; it can only stop the loop earlier, yielding a prefix of
    the chunk list, so the size bounds proved below cover it.  The final
    content is returned (decoded with errors ignored, which cannot grow
    it), not discarded. -/
def readStream (maxBytes : Nat) : List (List Nat) → List Nat → List Nat
  | [], content => content
  | c :: rest, content =>
    let content2 := content ++ c
    if content2.length > maxBytes then content2
    else readStream maxBytes rest content2

/-- fetch_html from utils.py lines 22-68.  The try block covers the
    request; response.raise_for_status raises httpx.HTTPStatusError on a
    non-success status, and the except clauses catch only
    httpx.TooManyRedirects and httpx.RequestError, of which
    httpx.HTTPStatusError is not a subclass, so a non-success status
    escapes as an exception (embedded as Except.error).  When the
    Content-Length header is present and exceeds the ceiling the body is
    never read and None is returned; otherwise the body is streamed with
    readStream and returned. -/
def fetch_html (outcome : HttpOutcome) (max_size_kb : Nat := MAX_SIZE_KB) :
    Except PyError (Option (List Nat)) :=
  match outcome with
  | .requestError => .ok none
  | .tooManyRedirects => .ok none
  | .ok statusSuccess r =>
    if !statusSuccess then .error .httpStatusError
    else
      match r.contentLength with
      | some size =>
        if size > max_size_kb * 1024 then .ok none
        else .ok (some (readStream (max_size_kb * 1024) r.chunks []))
      | none => .ok (some (readStream (max_size_kb * 1024) r.chunks []))

/-- Host part of a URL as tldextract sees it: everything after a scheme
    separator when present, up to the first slash, question mark or hash,
    with userinfo before an at sign and a port after a colon removed. -/
def tldHost (url : String) : String :=
  let l := url.data
  let rec afterSep : List Char → Option (List Char)
    | [] => none
    | c :: t => if ':' :: '/' :: '/' :: [] |>.isPrefixOf (c :: t) then some ((c :: t).drop 3) else afterSep t
  let body := match afterSep l with
    | some r => r
    | none => l
  let hostport := body.takeWhile (fun c => c != '/' && c != '?' && c != '#')
  let afterUser := match breakAt '@' hostport with
    | (_, some rest) => rest
    | (h, none) => h
  String.mk (breakAt ':' afterUser).1

/-- Modelled from the library tldextract used at utils.py line 84:
    extract(url).suffix, simplified to single-label public suffixes: the
    last dot-separated label of the host when the host has at least two
    labels, otherwise the empty string.  The claims settled below either
    use this value on hosts with a single-label suffix or are independent
    of it. -/
def tldextract_suffix (url : String) : String :=
  let host := tldHost url
  let labels := pySplitChar '.' host
  if labels.length ≥ 2 then labels.getLast?.getD "" else ""

/-- The URL-based feature dictionary of utils.py lines 89-102, in the
    insertion order of the source. -/
def urlFeatures (url : String) : Features :=
  let parsed := safe_urlparse url
  let domain := match parsed with
    | some p => p.netloc
    | none => ""
  let tld := tldextract_suffix url
  [("url_length", FVal.i url.length),
   ("num_dots", FVal.i (url.data.count '.')),
   ("has_at_symbol", FVal.b (pyIn "@" url)),
   ("uses_https", FVal.b (match parsed with
      | some p => p.scheme == "https"
      | none => false)),
   ("suspicious_words", FVal.i (if ["login", "verify", "secure", "update"].any (fun w => pyIn w (pyLower url)) then 1 else 0)),
   ("has_ip_address", FVal.b (ipSearch url.data)),
   ("num_subdomains", FVal.i (if domain ≠ "" then max 0 ((pySplitChar '.' domain).length - 2 : Int) else 0)),
   ("is_suspicious_tld", FVal.b (["tk", "ml", "ga", "cf", "gq"].contains tld)),
   ("has_hyphen", FVal.b (pyIn "-" domain)),
   ("url_has_encoding", FVal.b (pyIn "%" url || encSearch url.data)),
   ("url_has_long_query", FVal.b (match parsed with
      | some p => decide (p.query.length > 100)
      | none => false)),
   ("url_ends_with_exe", FVal.b (strEndsWith (pyLower url) ".exe"))]

/-- The zero/false defaults for the HTML-derived features, the dict literal
    that utils.py repeats at lines 106-115 and 120-129 and main.py repeats
    at lines 118-136 (identical keys, order and values in all three). -/
def htmlDefaultFeatures : Features :=
  [("num_forms", FVal.i 0), ("num_inputs", FVal.i 0), ("num_links", FVal.i 0),
   ("num_password_inputs", FVal.i 0), ("num_hidden_inputs", FVal.i 0),
   ("num_onclick_events", FVal.i 0), ("num_hidden_elements", FVal.i 0),
   ("has_iframe", FVal.b false), ("has_zero_sized_iframe", FVal.b false),
   ("suspicious_form_action", FVal.b false), ("has_script_eval", FVal.b false),
   ("has_network_js", FVal.b false), ("has_base64_in_js", FVal.b false),
   ("num_inline_scripts", FVal.i 0), ("external_js_count", FVal.i 0),
   ("external_iframe_count", FVal.i 0), ("num_external_domains", FVal.i 0)]

/-- The external_domains set comprehension of utils.py lines 155-159 over
    the script, link, img and iframe elements: for each tag with a truthy
    src-or-href, safe_urlparse of that value is immediately dereferenced
    with .netloc, which raises AttributeError when safe_urlparse returned
    None (no guard, unlike lines 180 and 188); otherwise the netloc is
    collected when it differs from the page domain. -/
def externalDomainsAux (domain : String) : List TagInfo → Except PyError (List String)
  | [] => .ok []
  | t :: rest =>
    let s := pyOr (attrGet t "src") (attrGet t "href")
    if isTruthy s then
      match safe_urlparse (s.getD "") with
      | none => .error .attributeError
      | some p =>
        if p.netloc != domain then
          (externalDomainsAux domain rest).map (fun r => p.netloc :: r)
        else externalDomainsAux domain rest
    else externalDomainsAux domain rest

/-- The external_domains set of utils.py lines 155-159, deduplicated as a
    Python set is. -/
def externalDomains (soup : Dom) (domain : String) : Except PyError (List String) :=
  (externalDomainsAux domain ((allTags soup).filter (fun t => ["script", "link", "img", "iframe"].contains t.name))).map List.dedup

/-- MAX_CHARS from utils.py line 142. -/
def MAX_CHARS : Nat := 20000

/-- extract_features from utils.py lines 76-196.  When html is None or
    whitespace-only, or larger than the size ceiling with
    skip_dom_if_large set, the URL-only features plus the zero defaults
    are returned with an empty visible text.  Otherwise the parse tree has
    the script, style and noscript subtrees decomposed, the visible text
    is derived from it, and the DOM features are computed on the
    decomposed tree — in particular find_all of script at line 153 runs
    after the decomposition at lines 134-135.  The external_domains
    comprehension can raise AttributeError, embedded as Except.error. -/
def extract_features (url : String) (html : Option Html)
    (max_size_kb : Nat := MAX_SIZE_KB) (max_tokens : Nat := 512)
    (skip_dom_if_large : Bool := true) : Except PyError (String × Features) :=
  let parsed := safe_urlparse url
  let domain := match parsed with
    | some p => p.netloc
    | none => ""
  match html with
  | none => .ok ("", urlFeatures url ++ htmlDefaultFeatures)
  | some h =>
    if pyStrip h.raw = "" then .ok ("", urlFeatures url ++ htmlDefaultFeatures)
    else if skip_dom_if_large && decide (h.raw.length > 1024 * max_size_kb) then
      .ok ("", urlFeatures url ++ htmlDefaultFeatures)
    else
      let soup := decomposeList ["script", "style", "noscript"] h.dom
      let text := pyLower (pyStrip (collapseWs (getTextStrip " " soup)))
      let text2 := String.mk (text.data.filter isAllowedTextChar)
      let tokens := (pySplitWs text2).take max_tokens
      let visible_text := strTake (joinSep " " tokens) MAX_CHARS
      let forms := findTags soup "form"
      let inputs := findTags soup "input"
      let links := findTags soup "a"
      let iframes := findTags soup "iframe"
      let script_tags := findTags soup "script"
      match externalDomains soup domain with
      | .error e => .error e
      | .ok external_domains =>
        .ok (visible_text, urlFeatures url ++
          [("num_forms", FVal.i forms.length),
           ("num_inputs", FVal.i inputs.length),
           ("num_links", FVal.i links.length),
           ("num_password_inputs", FVal.i (inputs.filter (fun inp => attrGet inp "type" == some "password")).length),
           ("num_hidden_inputs", FVal.i (inputs.filter (fun inp => attrGet inp "type" == some "hidden")).length),
           ("num_onclick_events", FVal.i ((allTags soup).filter (fun t => (attrGet t "onclick").isSome)).length),
           ("num_hidden_elements", FVal.i ((allTags soup).filter (fun t =>
              match attrGet t "style" with
              | some s => pyIn "display:none" s || pyIn "visibility:hidden" s
              | none => false)).length),
           ("has_iframe", FVal.b (!iframes.isEmpty)),
           ("has_zero_sized_iframe", FVal.b (iframes.any (fun ifr =>
              attrGet ifr "width" == some "0" || attrGet ifr "width" == some "1" ||
              attrGet ifr "height" == some "0" || attrGet ifr "height" == some "1"))),
           ("suspicious_form_action", FVal.b (forms.any (fun form =>
              isTruthy (attrGet form "action") &&
              match safe_urlparse ((attrGet form "action").getD "") with
              | some p => decide (p.netloc ≠ "" ∧ p.netloc ≠ domain)
              | none => false))),
           ("has_script_eval", FVal.b (pyIn "eval(" h.raw)),
           ("has_network_js", FVal.b (["fetch(", "XMLHttpRequest", "navigator.sendBeacon", "new WebSocket"].any (fun k => pyIn k h.raw))),
           ("has_base64_in_js", FVal.b (hasBase64 h.raw.data)),
           ("num_inline_scripts", FVal.i (script_tags.filter (fun s => !isTruthy (attrGet s "src"))).length),
           ("external_js_count", FVal.i (script_tags.filter (fun t =>
              isTruthy (attrGet t "src") &&
              match safe_urlparse ((attrGet t "src").getD "") with
              | some p => p.netloc != domain
              | none => false)).length),
           ("external_iframe_count", FVal.i (iframes.filter (fun ifr =>
              isTruthy (attrGet ifr "src") &&
              match safe_urlparse ((attrGet ifr "src").getD "") with
              | some p => p.netloc != domain
              | none => false)).length),
           ("num_external_domains", FVal.i external_domains.length)])

end Utils

namespace Main

/-- extract_texts from main.py lines 53-59: empty string for None, else
    decompose the script and style subtrees and take
    get_text(separator, strip=True) of the rest. -/
def extract_texts (html : Option Html) : String :=
  match html with
  | none => ""
  | some h => getTextStrip " " (decomposeList ["script", "style"] h.dom)

/-- The external_domains loop of main.py lines 85-91 over the script, link,
    img and iframe elements: for each tag with a truthy src-or-href,
    urlparse is applied unguarded (a ValueError propagates) and the netloc
    is collected when it is nonempty and differs from the page domain. -/
def externalDomainsAux (domain : String) : List TagInfo → Except PyError (List String)
  | [] => .ok []
  | t :: rest =>
    let s := pyOr (attrGet t "src") (attrGet t "href")
    if isTruthy s then
      match pyUrlparse (s.getD "") with
      | none => .error .valueError
      | some p =>
        if p.netloc != "" && p.netloc != domain then
          (externalDomainsAux domain rest).map (fun r => p.netloc :: r)
        else externalDomainsAux domain rest
    else externalDomainsAux domain rest

/-- The external_domains set of main.py lines 85-91, deduplicated as a
    Python set is. -/
def externalDomains (soup : Dom) (domain : String) : Except PyError (List String) :=
  (externalDomainsAux domain ((allTags soup).filter (fun t => ["script", "link", "img", "iframe"].contains t.name))).map List.dedup

/-- Short-circuiting any over a computation that can raise, as a Python
    generator inside any can. -/
def exAny (f : TagInfo → Except PyError Bool) : List TagInfo → Except PyError Bool
  | [] => .ok false
  | t :: rest => do
    let b ← f t
    if b then pure true else exAny f rest

/-- Length of a filtered list over a computation that can raise, as a
    Python list comprehension inside len can. -/
def exCount (f : TagInfo → Except PyError Bool) : List TagInfo → Except PyError Nat
  | [] => .ok 0
  | t :: rest => do
    let b ← f t
    let n ← exCount f rest
    pure (if b then n + 1 else n)

/-- extract_heuristics from main.py lines 62-137.  urlparse at line 65 is
    unguarded, so a ValueError on the input URL propagates (embedded as
    Except.error).  The URL features differ from the utils.py extractor:
    num_subdomains has no floor at zero and no empty-host guard (line 75),
    and is_suspicious_tld uses the last dot-separated label of the netloc
    rather than tldextract (line 76).  When html is truthy the DOM
    features are computed on the full parse tree — nothing is decomposed
    first — with urlparse applied unguarded to form actions and to script,
    iframe and external-domain src values.  When html is falsy the zero
    defaults are appended. -/
def extract_heuristics (url : String) (html : Option Html) : Except PyError Features := do
  let parsed ← match pyUrlparse url with
    | none => Except.error PyError.valueError
    | some p => Except.ok p
  let domain := parsed.netloc
  let features : Features :=
    [("url_length", FVal.i url.length),
     ("num_dots", FVal.i (url.data.count '.')),
     ("has_at_symbol", FVal.b (pyIn "@" url)),
     ("uses_https", FVal.b (parsed.scheme == "https")),
     ("suspicious_words", FVal.i (if ["login", "verify", "secure", "update"].any (fun w => pyIn w (pyLower url)) then 1 else 0)),
     ("has_ip_address", FVal.b (ipSearch url.data)),
     ("num_subdomains", FVal.i ((pySplitChar '.' parsed.netloc).length - 2 : Int)),
     ("is_suspicious_tld", FVal.b (["tk", "ml", "ga", "cf", "gq"].contains ((pySplitChar '.' parsed.netloc).getLast?.getD ""))),
     ("has_hyphen", FVal.b (pyIn "-" parsed.netloc)),
     ("url_has_encoding", FVal.b (pyIn "%" url || encSearch url.data)),
     ("url_has_long_query", FVal.b (decide (parsed.query.length > 100))),
     ("url_ends_with_exe", FVal.b (strEndsWith (pyLower url) ".exe"))]
  match html with
  | some h =>
    if h.raw ≠ "" then do
      let soup := h.dom
      let external_domains ← externalDomains soup domain
      let script_tags := findTags soup "script"
      let inputs := findTags soup "input"
      let iframes := findTags soup "iframe"
      let suspicious_form_action ← exAny (fun form =>
        if isTruthy (attrGet form "action") then
          match pyUrlparse ((attrGet form "action").getD "") with
          | none => .error .valueError
          | some p => .ok (decide (p.netloc ≠ "" ∧ p.netloc ≠ domain))
        else .ok false) (findTags soup "form")
      let external_js_count ← exCount (fun t =>
        if isTruthy (attrGet t "src") then
          match pyUrlparse ((attrGet t "src").getD "") with
          | none => .error .valueError
          | some p => .ok (p.netloc != domain)
        else .ok false) script_tags
      let external_iframe_count ← exCount (fun t =>
        if isTruthy (attrGet t "src") then
          match pyUrlparse ((attrGet t "src").getD "") with
          | none => .error .valueError
          | some p => .ok (p.netloc != domain)
        else .ok false) iframes
      pure (features ++
        [("num_forms", FVal.i (findTags soup "form").length),
         ("num_inputs", FVal.i inputs.length),
         ("num_links", FVal.i (findTags soup "a").length),
         ("num_password_inputs", FVal.i (inputs.filter (fun inp => attrGet inp "type" == some "password")).length),
         ("num_hidden_inputs", FVal.i (inputs.filter (fun inp => attrGet inp "type" == some "hidden")).length),
         ("num_onclick_events", FVal.i ((allTags soup).filter (fun t => (attrGet t "onclick").isSome)).length),
         ("num_hidden_elements", FVal.i ((allTags soup).filter (fun t =>
            match attrGet t "style" with
            | some s => pyIn "display:none" s || pyIn "visibility:hidden" s
            | none => false)).length),
         ("has_iframe", FVal.b (!iframes.isEmpty)),
         ("has_zero_sized_iframe", FVal.b (iframes.any (fun ifr =>
            attrGet ifr "width" == some "0" || attrGet ifr "width" == some "1" ||
            attrGet ifr "height" == some "0" || attrGet ifr "height" == some "1"))),
         ("suspicious_form_action", FVal.b suspicious_form_action),
         ("has_script_eval", FVal.b (pyIn "eval(" h.raw)),
         ("has_network_js", FVal.b (["fetch(", "XMLHttpRequest", "navigator.sendBeacon", "new WebSocket"].any (fun k => pyIn k h.raw))),
         ("has_base64_in_js", FVal.b (hasBase64 h.raw.data)),
         ("num_inline_scripts", FVal.i (script_tags.filter (fun s => !isTruthy (attrGet s "src"))).length),
         ("external_js_count", FVal.i external_js_count),
         ("external_iframe_count", FVal.i external_iframe_count),
         ("num_external_domains", FVal.i external_domains.length)])
    else pure (features ++ Utils.htmlDefaultFeatures)
  | none => pure (features ++ Utils.htmlDefaultFeatures)

/-- The canonical empty-page marker compared against at main.py line 195. -/
def EMPTY_PAGE : String := "<html><head></head><body></body></html>"

/-- html_length from main.py line 188: the string length of the fetched
    content, with missing content filled with zero. -/
def html_length (h : Option String) : Nat :=
  (h.getD "").length

/-- fetch_status from main.py line 189: success exactly when the content is
    truthy. -/
def fetch_status (h : Option String) : String :=
  if isTruthy h then "success" else "failed"

/-- The quality filter of main.py lines 193-197: keep a row when the fetch
    status is success, the content is not the canonical empty page, and
    the content length exceeds 6000. -/
def quality_filter (h : Option String) : Bool :=
  fetch_status h == "success" && h != some EMPTY_PAGE && decide (html_length h > 6000)

/-- One output row of the phishing pipeline after main.py line 208 drops
    html_content: the URL, the extracted visible text, the heuristic
    features and the result label. -/
structure DatasetRow where
  url : String
  visible_text : String
  features : Features
  result : Nat
  deriving DecidableEq, Repr

/-- The per-row composition of main.py lines 193-207: apply the quality
    filter (none when the row is dropped), then derive visible_text with
    extract_texts and the features with extract_heuristics, and set the
    result label to 1. -/
def processRow (url : String) (html : Option Html) : Option (Except PyError DatasetRow) :=
  if quality_filter (html.map Html.raw) then
    some (do
      let feats ← extract_heuristics url html
      pure { url := url, visible_text := extract_texts html, features := feats, result := 1 })
  else none

/-- The dataset merge of main.py line 231: pd.concat of the existing table
    and the new rows, with no deduplication of any kind, written back as
    the full replacement table. -/
def mergeDatasets {α : Type} (df_existing new_rows : List α) : List α :=
  df_existing ++ new_rows

end Main

/-- The netloc the utils.py extractor derives from the input URL: the
    parsed netloc, or the empty string when safe_urlparse fails
    (utils.py line 85). -/
def parsedNetloc (url : String) : String :=
  match safe_urlparse url with
  | some p => p.netloc
  | none => ""

/-- The num_subdomains formula in the words of the specification table:
    (number of dot-separated labels in the host) minus 2, floored at 0.
    Stated separately from the code-derived definitions so that the code
    can be compared against it. -/
def spec_num_subdomains (host : String) : Int :=
  max 0 ((pySplitChar '.' host).length - 2 : Int)

/-- Concrete input for the script-counting claims: a page with one inline
    script and one script with an external src. -/
def url4 : String := "http://example.com/"

/-- Raw markup of the script-counting input. -/
def raw4 : String := "<script>var a=1;</script><script src=\"http://cdn.other.com/a.js\"></script>"

/-- Parse tree of the script-counting input. -/
def dom4 : Dom :=
  Dom.elem "script" [] (Dom.text "var a=1;" Dom.nil)
    (Dom.elem "script" [("src", "http://cdn.other.com/a.js")] Dom.nil Dom.nil)

/-- The script-counting input as an Html value. -/
def html4 : Html := ⟨raw4, dom4⟩

/-- Concrete input for the malformed-embedded-URL claim: an img whose src
    makes urlparse raise ValueError (unbalanced bracket). -/
def url7 : String := "http://a.com/"

/-- Raw markup of the malformed-embedded-URL input. -/
def raw7 : String := "<img src=\"http://[\">"

/-- Parse tree of the malformed-embedded-URL input. -/
def dom7 : Dom := Dom.elem "img" [("src", "http://[")] Dom.nil Dom.nil

/-- The malformed-embedded-URL input as an Html value. -/
def html7 : Html := ⟨raw7, dom7⟩

/-- Candidate URL of the end-to-end scenario. -/
def url9 : String := "http://bad-example.tk/login"

/-- The markup of the end-to-end scenario before padding: one form whose
    action targets another domain, containing one password input. -/
def base9 : String := "<form action=\"http://other.com/x\"><input type=\"password\"></form>"

/-- The fetched 6500-byte document of the end-to-end scenario: the form
    markup padded with filler characters up to 6500 bytes. -/
def raw9 : String := base9 ++ String.mk (List.replicate 6436 'a')

/-- Parse tree of the end-to-end document: one form with an external
    action holding one password input. -/
def dom9 : Dom :=
  Dom.elem "form" [("action", "http://other.com/x")]
    (Dom.elem "input" [("type", "password")] Dom.nil Dom.nil) Dom.nil

/-- The end-to-end document as an Html value. -/
def html9 : Html := ⟨raw9, dom9⟩

/-- A concrete dataset row used to exhibit merge behaviour. -/
def row0 : Main.DatasetRow := ⟨"http://a.com/", "", [], 1⟩

/-! ## Theorems -/

/-- C2 counterexample: merging the same new-row set twice does not yield the
    same rows as merging it once, and the merged table is not duplicate-free:
    the merge of main.py line 231 is a plain concatenation. -/
theorem merge_not_idempotent :
    Main.mergeDatasets (Main.mergeDatasets ([] : List Main.DatasetRow) [row0]) [row0] ≠
      Main.mergeDatasets ([] : List Main.DatasetRow) [row0] ∧
    ¬ (Main.mergeDatasets (Main.mergeDatasets ([] : List Main.DatasetRow) [row0]) [row0]).Nodup := by
  constructor
  · decide
  · decide

/-- C2 amended: the dataset merge is a plain append with no deduplication;
    merging the same new-row set twice appends it twice, so every exact
    duplicate is retained. -/
theorem merge_is_plain_append {α : Type} (df_existing new_rows : List α) :
    Main.mergeDatasets df_existing new_rows = df_existing ++ new_rows ∧
    Main.mergeDatasets (Main.mergeDatasets df_existing new_rows) new_rows =
      df_existing ++ new_rows ++ new_rows ∧
    (Main.mergeDatasets (Main.mergeDatasets df_existing new_rows) new_rows).length =
      df_existing.length + 2 * new_rows.length := by
  refine ⟨rfl, rfl, ?_⟩
  simp [Main.mergeDatasets]
  omega

/-- C4: on a page with one inline script and one script with an external
    src, the utils.py extractor reports zero inline scripts and zero
    external scripts (the script subtrees are decomposed at lines 134-135
    before find_all collects script tags at line 153), while the main.py
    extractor run on the same page counts one of each. -/
theorem inline_scripts_lost_by_decompose :
    (Utils.extract_features url4 (some html4)).map (fun p =>
      (fget p.2 "num_inline_scripts", fget p.2 "external_js_count")) =
      .ok (some (FVal.i 0), some (FVal.i 0)) ∧
    (Main.extract_heuristics url4 (some html4)).map (fun fs =>
      (fget fs "num_inline_scripts", fget fs "external_js_count")) =
      .ok (some (FVal.i 1), some (FVal.i 1)) := by
  constructor
  · decide
  · decide

/-- C5: the quality filter of main.py lines 193-197 always excludes the
    canonical empty page, always excludes content of length at most 6000,
    always excludes missing content, and keeps a result exactly when it is
    present, differs from the canonical empty page and is longer than
    6000. -/
theorem quality_filter_spec :
    (∀ h, h = some Main.EMPTY_PAGE → Main.quality_filter h = false) ∧
    (∀ h, Main.html_length h ≤ 6000 → Main.quality_filter h = false) ∧
    Main.quality_filter none = false ∧
    (∀ h, Main.quality_filter h = true ↔
      h ≠ none ∧ h ≠ some Main.EMPTY_PAGE ∧ Main.html_length h > 6000) := by
  refine ⟨?_, ?_, by decide, ?_⟩
  · intro h hh
    subst hh
    decide
  · intro h hle
    have hd : decide (Main.html_length h > 6000) = false := by
      simp
      omega
    simp [Main.quality_filter, hd]
  · intro h
    match h with
    | none => simp [Main.quality_filter, Main.fetch_status, isTruthy]
    | some s =>
      by_cases hs : s = ""
      · subst hs
        simp [Main.quality_filter, Main.fetch_status, isTruthy, Main.html_length]
      · simp [Main.quality_filter, Main.fetch_status, isTruthy, hs, Main.html_length]

/-- C5 witness: the three exclusion rules and the keep characterization at
    concrete inputs. -/
theorem quality_filter_spec_witness :
    Main.quality_filter (some Main.EMPTY_PAGE) = false ∧
    Main.quality_filter (some "short") = false ∧
    Main.quality_filter none = false ∧
    (Main.quality_filter (some "x") = true ↔
      some "x" ≠ none ∧ some "x" ≠ some Main.EMPTY_PAGE ∧ Main.html_length (some "x") > 6000) :=
  ⟨quality_filter_spec.1 (some Main.EMPTY_PAGE) rfl,
   quality_filter_spec.2.1 (some "short") (by decide),
   quality_filter_spec.2.2.1,
   quality_filter_spec.2.2.2 (some "x")⟩

/-- C6: a request error and a too-many-redirects failure return None, but a
    response with a non-success HTTP status makes the fetcher raise
    httpx.HTTPStatusError to the caller (raise_for_status at utils.py line
    42 is not caught by the except clauses at lines 63-68), and a streamed
    body that crosses the ceiling is returned as content rather than
    collapsed to None. -/
theorem fetch_html_failure_modes :
    Utils.fetch_html Utils.HttpOutcome.requestError = .ok none ∧
    Utils.fetch_html Utils.HttpOutcome.tooManyRedirects = .ok none ∧
    Utils.fetch_html (Utils.HttpOutcome.ok false ⟨none, []⟩) = .error .httpStatusError ∧
    Utils.fetch_html (Utils.HttpOutcome.ok true ⟨none, [[0], [1]]⟩) 0 = .ok (some [0]) := by
  exact ⟨rfl, rfl, rfl, rfl⟩

/-- C7: on a page whose img src is a malformed URL, the utils.py extractor
    raises AttributeError (the external_domains comprehension at lines
    155-159 dereferences .netloc on the None returned by safe_urlparse),
    while a URL-structure parse failure on the input URL itself falls back
    to false/zero lexical defaults with the length-based features still
    computed from the raw URL string. -/
theorem malformed_embedded_src_raises :
    Utils.extract_features url7 (some html7) = .error PyError.attributeError ∧
    (Utils.extract_features "http://[" none).map (fun p =>
      (p.1, fget p.2 "uses_https", fget p.2 "num_subdomains",
       fget p.2 "url_has_long_query", fget p.2 "has_hyphen")) =
      .ok ("", some (FVal.b false), some (FVal.i 0),
        some (FVal.b false), some (FVal.b false)) ∧
    (Utils.extract_features "http://[" none).map (fun p =>
      (fget p.2 "url_length", fget p.2 "num_dots", fget p.2 "has_at_symbol",
       fget p.2 "suspicious_words", fget p.2 "url_ends_with_exe")) =
      .ok (some (FVal.i 8), some (FVal.i 0), some (FVal.b false),
        some (FVal.i 0), some (FVal.b false)) := by
  refine ⟨by decide, by decide, by decide⟩

/-- C8 counterexample: for the URL http://localhost/ the main.py extractor
    reports num_subdomains = -1, a negative value, contradicting the
    floored-at-zero formula. -/
theorem num_subdomains_negative :
    (Main.extract_heuristics "http://localhost/" none).map (fun fs =>
      fget fs "num_subdomains") = .ok (some (FVal.i (-1))) ∧ (-1 : Int) < 0 := by
  constructor
  · decide
  · decide

/-- C8 amended: the utils.py extractor computes num_subdomains exactly as
    the specification table states it: labels of the parsed host minus 2,
    floored at 0, which is also 0 for an empty host. -/
theorem num_subdomains_floored (url : String) :
    fget (Utils.urlFeatures url) "num_subdomains" =
      some (FVal.i (spec_num_subdomains (parsedNetloc url))) := by
  have h : fget (Utils.urlFeatures url) "num_subdomains" =
      some (FVal.i (if parsedNetloc url ≠ "" then
        max 0 ((pySplitChar '.' (parsedNetloc url)).length - 2 : Int) else 0)) := rfl
  rw [h]
  unfold spec_num_subdomains
  by_cases hd : parsedNetloc url = ""
  · rw [hd]
    norm_num
    decide
  · rw [if_pos hd]

/-- Invariant of the streaming loop of utils.py lines 52-60: starting from
    accumulated content within the cap, with every chunk at most the 8192
    chunk size of aiter_bytes, the accumulated result stays within the cap
    plus one chunk. -/
theorem readStream_length_le (m : Nat) (chunks : List (List Nat)) :
    ∀ content : List Nat, (∀ c ∈ chunks, c.length ≤ 8192) → content.length ≤ m →
      (Utils.readStream m chunks content).length ≤ m + 8192 := by
  induction chunks with
  | nil =>
    intro content _ hc
    simpa [Utils.readStream] using le_trans hc (Nat.le_add_right m 8192)
  | cons c rest ih =>
    intro content hall hc
    simp only [Utils.readStream]
    split
    · have hcl : c.length ≤ 8192 := hall c (by simp)
      simp only [List.length_append]
      omega
    · exact ih (content ++ c) (fun x hx => hall x (by simp [hx])) (by omega)

/-- On a stream of equally sized chunks long enough to cross the cap, the
    streaming loop returns content strictly larger than the cap: the loop
    appends the crossing chunk before checking the size and the crossing
    content is returned, not discarded. -/
theorem readStream_exceeds (m s x : Nat) :
    ∀ n a : Nat, a ≤ m → m < a + n * s →
      ∃ j, Utils.readStream m (List.replicate n (List.replicate s x)) (List.replicate a x) =
        List.replicate (a + j * s) x ∧ m < a + j * s := by
  intro n
  induction n with
  | zero =>
    intro a ha hlt
    simp at hlt
    omega
  | succ k ih =>
    intro a ha hlt
    rw [List.replicate_succ]
    simp only [Utils.readStream, ← List.replicate_add, List.length_replicate]
    by_cases hc : m < a + s
    · rw [if_pos hc]
      exact ⟨1, by rw [one_mul], by rwa [one_mul]⟩
    · rw [if_neg hc]
      have hle : a + s ≤ m := by omega
      have hlt2 : m < (a + s) + k * s := by
        have : a + (k + 1) * s = (a + s) + k * s := by ring
        omega
      obtain ⟨j, heq, hgt⟩ := ih (a + s) hle hlt2
      refine ⟨j + 1, ?_, ?_⟩
      · rw [heq]
        congr 1
        ring
      · have : (a + s) + j * s = a + (j + 1) * s := by ring
        omega

/-- C3 counterexample: a response without Content-Length streamed as 28
    chunks of the 8192-byte chunk size (229376 bytes in total) makes the
    fetcher return content of more than the default 220 KiB ceiling; the
    returned content is not discarded and not truncated to the ceiling. -/
theorem fetch_html_exceeds_ceiling :
    ∃ content,
      Utils.fetch_html (Utils.HttpOutcome.ok true ⟨none, List.replicate 28 (List.replicate 8192 0)⟩) =
        .ok (some content) ∧ content.length > Utils.MAX_SIZE_KB * 1024 := by
  obtain ⟨j, heq, hgt⟩ := readStream_exceeds 225280 8192 0 28 0 (by norm_num) (by norm_num)
  refine ⟨List.replicate (0 + j * 8192) 0, ?_, ?_⟩
  · show Except.ok (some (Utils.readStream (Utils.MAX_SIZE_KB * 1024)
      (List.replicate 28 (List.replicate 8192 0)) [])) = _
    have hm : Utils.MAX_SIZE_KB * 1024 = 225280 := by norm_num [Utils.MAX_SIZE_KB]
    rw [hm, show ([] : List Nat) = List.replicate 0 0 from rfl, heq]
  · have hm : Utils.MAX_SIZE_KB * 1024 = 225280 := by norm_num [Utils.MAX_SIZE_KB]
    rw [hm]
    simpa using hgt

/-- C3 amended: a declared Content-Length above the ceiling returns None
    with no body read, and a ceiling-crossing stream without Content-Length
    returns the accumulated content, whose size exceeds the ceiling by less
    than one 8192-byte chunk (at most ceiling + 8192), rather than being
    capped at the ceiling. -/
theorem fetch_html_bounded (k size : Nat) (chunks : List (List Nat)) (res : List Nat)
    (hsize : size > k * 1024) (hchunk : ∀ c ∈ chunks, c.length ≤ 8192)
    (hres : Utils.fetch_html (Utils.HttpOutcome.ok true ⟨none, chunks⟩) k = .ok (some res)) :
    Utils.fetch_html (Utils.HttpOutcome.ok true ⟨some size, chunks⟩) k = .ok none ∧
    res.length ≤ k * 1024 + 8192 := by
  constructor
  · simp [Utils.fetch_html, hsize]
  · have hb := readStream_length_le (k * 1024) chunks [] hchunk (by simp)
    have hr : res = Utils.readStream (k * 1024) chunks [] := by
      have := hres
      simp only [Utils.fetch_html, Bool.not_true, Bool.false_eq_true, if_false] at this
      injection this with h1
      injection h1 with h2
      exact h2.symm
    rw [hr]
    exact hb

/-- C3 amended witness: a declared oversize Content-Length and a small
    stream at the default ceiling. -/
theorem fetch_html_bounded_witness :
    Utils.fetch_html (Utils.HttpOutcome.ok true ⟨some 225281, [[0]]⟩) 220 = .ok none ∧
    ([0] : List Nat).length ≤ 220 * 1024 + 8192 :=
  fetch_html_bounded 220 225281 [[0]] [0] (by norm_num) (by decide) (by decide)

/-- Python str.strip of a string of whitespace characters is empty. -/
theorem pyStrip_all_space (s : String) (h : ∀ c ∈ s.data, pyIsSpace c = true) :
    pyStrip s = "" := by
  unfold pyStrip
  rw [List.dropWhile_eq_nil_iff.mpr h]
  rfl

/-- C10: a whitespace-only HTML string is routed to the same fallback as
    absent HTML by the check at utils.py line 105, so the extractor result
    is identical: empty visible text and the URL features extended with the
    zero/false defaults. -/
theorem whitespace_html_like_absent (url raw : String) (dom : Dom)
    (hne : raw ≠ "") (hws : ∀ c ∈ raw.data, pyIsSpace c = true) :
    Utils.extract_features url (some ⟨raw, dom⟩) = Utils.extract_features url none ∧
    Utils.extract_features url none =
      .ok ("", Utils.urlFeatures url ++ Utils.htmlDefaultFeatures) := by
  have hstrip : pyStrip raw = "" := pyStrip_all_space raw hws
  constructor
  · simp [Utils.extract_features, hstrip]
  · rfl

/-- C10 witness: a one-space document with a nonempty parse tree extracts
    exactly as absent HTML. -/
theorem whitespace_html_like_absent_witness :
    Utils.extract_features "http://x.com" (some ⟨" ", Dom.elem "form" [] Dom.nil Dom.nil⟩) =
      Utils.extract_features "http://x.com" none ∧
    Utils.extract_features "http://x.com" none =
      .ok ("", Utils.urlFeatures "http://x.com" ++ Utils.htmlDefaultFeatures) :=
  whitespace_html_like_absent "http://x.com" " " (Dom.elem "form" [] Dom.nil Dom.nil)
    (by decide) (by decide)

/-- C1: for every URL, extraction with absent HTML returns empty visible
    text and the URL features extended with the zero/false defaults; the
    defaults hold every HTML-derived schema field with value 0 or false in
    the returned record; and any successful extraction with HTML present
    yields a record with exactly the same field names in the same order. -/
theorem extract_null_schema (url : String) :
    Utils.extract_features url none =
      .ok ("", Utils.urlFeatures url ++ Utils.htmlDefaultFeatures) ∧
    (fget (Utils.urlFeatures url ++ Utils.htmlDefaultFeatures) "num_forms" = some (FVal.i 0) ∧
     fget (Utils.urlFeatures url ++ Utils.htmlDefaultFeatures) "num_inputs" = some (FVal.i 0) ∧
     fget (Utils.urlFeatures url ++ Utils.htmlDefaultFeatures) "num_links" = some (FVal.i 0) ∧
     fget (Utils.urlFeatures url ++ Utils.htmlDefaultFeatures) "num_password_inputs" = some (FVal.i 0) ∧
     fget (Utils.urlFeatures url ++ Utils.htmlDefaultFeatures) "num_hidden_inputs" = some (FVal.i 0) ∧
     fget (Utils.urlFeatures url ++ Utils.htmlDefaultFeatures) "num_onclick_events" = some (FVal.i 0) ∧
     fget (Utils.urlFeatures url ++ Utils.htmlDefaultFeatures) "num_hidden_elements" = some (FVal.i 0) ∧
     fget (Utils.urlFeatures url ++ Utils.htmlDefaultFeatures) "has_iframe" = some (FVal.b false) ∧
     fget (Utils.urlFeatures url ++ Utils.htmlDefaultFeatures) "has_zero_sized_iframe" = some (FVal.b false) ∧
     fget (Utils.urlFeatures url ++ Utils.htmlDefaultFeatures) "suspicious_form_action" = some (FVal.b false) ∧
     fget (Utils.urlFeatures url ++ Utils.htmlDefaultFeatures) "has_script_eval" = some (FVal.b false) ∧
     fget (Utils.urlFeatures url ++ Utils.htmlDefaultFeatures) "has_network_js" = some (FVal.b false) ∧
     fget (Utils.urlFeatures url ++ Utils.htmlDefaultFeatures) "has_base64_in_js" = some (FVal.b false) ∧
     fget (Utils.urlFeatures url ++ Utils.htmlDefaultFeatures) "num_inline_scripts" = some (FVal.i 0) ∧
     fget (Utils.urlFeatures url ++ Utils.htmlDefaultFeatures) "external_js_count" = some (FVal.i 0) ∧
     fget (Utils.urlFeatures url ++ Utils.htmlDefaultFeatures) "external_iframe_count" = some (FVal.i 0) ∧
     fget (Utils.urlFeatures url ++ Utils.htmlDefaultFeatures) "num_external_domains" = some (FVal.i 0)) ∧
    (∀ h vt fs, Utils.extract_features url (some h) = .ok (vt, fs) →
      fs.map Prod.fst = (Utils.urlFeatures url ++ Utils.htmlDefaultFeatures).map Prod.fst) := by
  refine ⟨rfl, ⟨rfl, rfl, rfl, rfl, rfl, rfl, rfl, rfl, rfl, rfl, rfl, rfl, rfl, rfl, rfl, rfl, rfl⟩, ?_⟩
  intro h vt fs hok
  simp only [Utils.extract_features] at hok
  by_cases h1 : pyStrip h.raw = ""
  · rw [if_pos h1] at hok
    simp only [Except.ok.injEq, Prod.mk.injEq] at hok
    rw [← hok.2]
  · rw [if_neg h1] at hok
    by_cases h2 : (true && decide (h.raw.length > 1024 * Utils.MAX_SIZE_KB)) = true
    · rw [if_pos h2] at hok
      simp only [Except.ok.injEq, Prod.mk.injEq] at hok
      rw [← hok.2]
    · rw [if_neg h2] at hok
      cases hex : Utils.externalDomains (decomposeList ["script", "style", "noscript"] h.dom)
          (match safe_urlparse url with
           | some p => p.netloc
           | none => "") with
      | error e =>
        rw [hex] at hok
        exact absurd hok (by simp)
      | ok ext =>
        rw [hex] at hok
        simp only [Except.ok.injEq, Prod.mk.injEq] at hok
        rw [← hok.2]
        simp [List.map_append, Utils.htmlDefaultFeatures]

/-- C1 witness: the schema equality and the defaults at a concrete URL,
    with the HTML branch discharged at a whitespace document. -/
theorem extract_null_schema_witness :
    Utils.extract_features "http://x.com" none =
      .ok ("", Utils.urlFeatures "http://x.com" ++ Utils.htmlDefaultFeatures) ∧
    (Utils.urlFeatures "http://x.com" ++ Utils.htmlDefaultFeatures).map Prod.fst =
      (Utils.urlFeatures "http://x.com" ++ Utils.htmlDefaultFeatures).map Prod.fst :=
  ⟨(extract_null_schema "http://x.com").1,
   (extract_null_schema "http://x.com").2.2 ⟨" ", Dom.nil⟩ ""
     (Utils.urlFeatures "http://x.com" ++ Utils.htmlDefaultFeatures) rfl⟩

/-- Length of the unpadded scenario markup. -/
theorem base9_length : base9.length = 64 := by decide

/-- The padded scenario document is exactly 6500 characters. -/
theorem raw9_length : raw9.length = 6500 := by
  rw [raw9, String.length_append, base9_length, String.length_mk, List.length_replicate]

/-- The scenario document is nonempty. -/
theorem raw9_ne_empty : raw9 ≠ "" := by
  intro h
  have hl := congrArg String.length h
  rw [raw9_length] at hl
  simp at hl

/-- The scenario document differs from the canonical empty-page marker. -/
theorem raw9_ne_marker : raw9 ≠ Main.EMPTY_PAGE := by
  intro h
  have hl := congrArg String.length h
  rw [raw9_length, show Main.EMPTY_PAGE.length = 39 from by decide] at hl
  exact absurd hl (by norm_num)

/-- The 6500-byte scenario fetch passes the quality filter. -/
theorem qf9 : Main.quality_filter (some raw9) = true := by
  simp [Main.quality_filter, Main.fetch_status, Main.html_length, isTruthy,
    raw9_ne_empty, raw9_ne_marker, raw9_length]

/-- C9: the end-to-end scenario: the candidate http://bad-example.tk/login
    with a successfully fetched 6500-byte document holding one form with
    action http://other.com/x and one password input passes the quality
    filter and produces a row with is_suspicious_tld true, suspicious_words
    truthy (1), num_forms 1, suspicious_form_action true,
    num_password_inputs 1 and result 1. -/
theorem end_to_end_scenario :
    raw9.length = 6500 ∧
    (Main.processRow url9 (some html9)).map (Except.map (fun r =>
      (r.result, fget r.features "is_suspicious_tld", fget r.features "suspicious_words",
       fget r.features "num_forms", fget r.features "suspicious_form_action",
       fget r.features "num_password_inputs"))) =
      some (.ok (1, some (FVal.b true), some (FVal.i 1), some (FVal.i 1),
        some (FVal.b true), some (FVal.i 1))) := by
  refine ⟨raw9_length, ?_⟩
  have hqf : Main.quality_filter (Option.map Html.raw (some html9)) = true := by
    simpa [html9] using qf9
  simp only [Main.processRow, hqf, if_true]
  rfl
